import Mathlib

/-!
# Verification of the Meriendahaus time-clock application

Shallow embedding of the core logic of the repository
(`clock/models.py`, `clock/views.py`, `clock/ip_utils.py`, `clock/admin.py`):

* the attendance state tracker (`do_check_in`, `do_check_out`, `clock_view`),
* the network admission check (`is_ip_allowed`, `validate_location_access`),
* the administrative entry form and save path (`TimeEntryForm.clean`,
  `TimeEntryAdmin.save_model`).

Conventions of the embedding:

* Timestamps are natural numbers (seconds); `timezone.now()` becomes an
  explicit `now` argument.
* The database table of time entries is a `List TimeEntry`, kept in the
  query order of the model's `Meta.ordering = ['-check_in']` (most recent
  check-in first); `QuerySet.first()` is `List.head?` of the filtered list,
  and a row created by check-in is consed at the head.
* The `ipaddress` library calls are modelled for the IPv4 family, the one
  used throughout the repository's allow-list examples: `ip_address` parses
  a dotted quad to a 32-bit value, `ip_network(_, strict := False)` parses
  `addr/prefixlen` and masks the host bits.
* Fallible operations return `Option`; Python view functions returning a
  `(success, error)` message pair keep that shape, paired with the new state.
-/

namespace Clock

/-! ## IPv4 parsing (embedding of the `ipaddress` library calls in
`clock/ip_utils.py`) -/

/-- `str.split(sep)` on a list of characters: split at every occurrence of
`sep`, keeping empty pieces (Python semantics: `"1.".split('.') = ['1','']`). -/
def splitOnChar (sep : Char) : List Char → List (List Char)
  | [] => [[]]
  | c :: cs =>
    if c == sep then [] :: splitOnChar sep cs
    else
      match splitOnChar sep cs with
      | [] => [[c]]
      | h :: t => (c :: h) :: t

/-- One octet of a dotted quad, after `IPv4Address._parse_octet`:
1–3 ASCII digits, no leading zero, value at most 255. -/
def parse_octet (cs : List Char) : Option Nat :=
  if cs.length = 0 || 3 < cs.length then none
  else if !cs.all (fun c => c.isDigit) then none
  else if 1 < cs.length && cs.headD '0' == '0' then none
  else
    let n := cs.foldl (fun a c => a * 10 + (c.toNat - 48)) 0
    if 255 < n then none else some n

/-- `ipaddress.ip_address(s)` for the IPv4 family: exactly four octets,
returned as a 32-bit value. -/
def ip_address_of_chars (cs : List Char) : Option Nat :=
  match (splitOnChar '.' cs).mapM parse_octet with
  | some [a, b, c, d] => some (((a * 256 + b) * 256 + c) * 256 + d)
  | _ => none

/-- `ipaddress.ip_address` on a string. -/
def ipaddress_ip_address (s : String) : Option Nat :=
  ip_address_of_chars s.toList

/-- Embedding of `IPv4Network._prefix_from_prefix_string`: the prefix part
in prefix-length form — a non-empty all-digit string whose value is at
most 32 (a larger value raises, sending `_make_netmask` to its
dotted-decimal fallback, which fails too on an all-digit string). -/
def prefix_from_prefix_string (cs : List Char) : Option Nat :=
  if cs.isEmpty || !cs.all (fun c => c.isDigit) then none
  else
    let n := cs.foldl (fun a c => a * 10 + (c.toNat - 48)) 0
    if 32 < n then none else some n

/-- Number of right-hand zero bits of `n`, computed with `fuel` division
steps (the model of `_count_righthand_zero_bits` for a non-zero argument,
with `fuel` standing for the 32-bit width bound). -/
def ctz_fuel : Nat → Nat → Nat
  | _, 0 => 0
  | n, fuel + 1 => if n % 2 = 1 then 0 else 1 + ctz_fuel (n / 2) fuel

/-- Embedding of `_count_righthand_zero_bits(number, 32)`: 32 for zero,
otherwise the number of trailing zero bits capped at 32. -/
def count_righthand_zero_bits (n : Nat) : Nat :=
  if n = 0 then 32 else min 32 (ctz_fuel n 32)

/-- Embedding of `IPv4Network._prefix_from_ip_int`: a 32-bit value passes
when, after dropping its trailing zero bits, only ones remain (the
`1*0*` netmask pattern, the all-ones and all-zero values included); the
prefix length is 32 minus the count of trailing zeros. -/
def prefix_from_ip_int (m : Nat) : Option Nat :=
  let tz := count_righthand_zero_bits m
  let p := 32 - tz
  if m / 2 ^ tz == 2 ^ p - 1 then some p else none

/-- Embedding of `IPv4Network._prefix_from_ip_string`: parse the part after
the slash as a dotted quad, then accept it as a netmask (`1*0*`) or, after
complementing the 32 bits (`^ _ALL_ONES`), as a hostmask (`0*1*`). -/
def prefix_from_ip_string (cs : List Char) : Option Nat :=
  match ip_address_of_chars cs with
  | none => none
  | some ip =>
    match prefix_from_ip_int ip with
    | some p => some p
    | none => prefix_from_ip_int ((2 ^ 32 - 1) - ip)

/-- Embedding of `IPv4Network._make_netmask` on the string after the
slash: first the prefix-length form, then the dotted-decimal
netmask/hostmask fallback. -/
def make_netmask (cs : List Char) : Option Nat :=
  match prefix_from_prefix_string cs with
  | some p => some p
  | none => prefix_from_ip_string cs

/-- Embedding of `ipaddress.ip_network(s, strict=False)` for the IPv4
family: `addr/mask` with exactly one `/`, where `mask` is a prefix length
or a dotted-decimal netmask/hostmask; host bits are masked away
(`strict=False`). Returns `(network address, prefix length)`. -/
def ipaddress_ip_network (s : String) : Option (Nat × Nat) :=
  match splitOnChar '/' s.toList with
  | [addr_part, mask_part] =>
    match ip_address_of_chars addr_part, make_netmask mask_part with
    | some a, some p => some ((a / 2 ^ (32 - p)) * 2 ^ (32 - p), p)
    | _, _ => none
  | _ => none

/-- `client_addr in network`: the client shares the network's first
`prefixlen` bits. -/
def network_contains (network : Nat × Nat) (client_addr : Nat) : Bool :=
  client_addr / 2 ^ (32 - network.2) == network.1 / 2 ^ (32 - network.2)

/-- The body of the loop in `is_ip_allowed` for one allow-list entry:
an entry containing `/` is tried as a CIDR block, any other entry as a
single address; an entry that fails to parse matches nothing
(the `except ValueError: continue`). -/
def entry_matches (client_addr : Nat) (allowed : String) : Bool :=
  if allowed.toList.contains '/' then
    match ipaddress_ip_network allowed with
    | some network => network_contains network client_addr
    | none => false
  else
    match ipaddress_ip_address allowed with
    | some a => client_addr == a
    | none => false

/-- `clock/ip_utils.py::is_ip_allowed`: empty list rejects; an unparseable
client IP rejects; otherwise the client is allowed exactly when some entry
of the list matches it. -/
def is_ip_allowed (client_ip : String) (allowed_list : List String) : Bool :=
  if allowed_list.isEmpty then false
  else
    match ipaddress_ip_address client_ip with
    | none => false
    | some client_addr => allowed_list.any (fun allowed => entry_matches client_addr allowed)

/-! ## Data model (`clock/models.py`) -/

/-- `clock/models.py::Location`: a workplace with its IP allow-list.
`id` stands for the database primary key used by foreign keys. -/
structure Location where
  id : Nat
  code : String
  name : String
  allowed_ips : List String
  is_active : Bool
deriving Repr, DecidableEq

/-- `clock/models.py::TimeEntry`: one clock-in/clock-out pair.
`user` and `location` are foreign keys (primary-key values); timestamps are
seconds. -/
structure TimeEntry where
  user : Nat
  location : Nat
  check_in : Nat
  check_out : Option Nat
  check_in_ip : String
  check_out_ip : Option String
  is_manual : Bool
  notes : String
  modified_by : Option Nat
deriving Repr, DecidableEq

/-- `clock/models.py::FailedClockAttempt`: one rejected clock attempt.
The `location` foreign key is nullable (`on_delete=SET_NULL`). -/
structure FailedClockAttempt where
  user : Nat
  location : Option Nat
  action : String
  ip_address : String
  timestamp : Nat
deriving Repr, DecidableEq

/-- `TimeEntry.is_open`: true when the entry has no check-out. -/
def TimeEntry.is_open (e : TimeEntry) : Bool :=
  e.check_out.isNone

/-- `TimeEntry.duration_minutes`: minutes between the two timestamps, or
`none` while the entry is open (`int(delta.total_seconds() / 60)`). -/
def TimeEntry.duration_minutes (e : TimeEntry) : Option Nat :=
  match e.check_out with
  | some co => some ((co - e.check_in) / 60)
  | none => none

/-- Python's `f"{n:02d}"` for a natural number. -/
def pad2 (n : Nat) : String :=
  if n < 10 then "0" ++ toString n else toString n

/-- `TimeEntry.duration_display`: `f"{hours}h {mins:02d}m"`, or
`"In progress"` while the entry is open. -/
def TimeEntry.duration_display (e : TimeEntry) : String :=
  match e.duration_minutes with
  | none => "In progress"
  | some minutes => toString (minutes / 60) ++ "h " ++ pad2 (minutes % 60) ++ "m"

/-- `datetime.strftime('%H:%M')` of a timestamp in seconds. -/
def strftime_HM (t : Nat) : String :=
  pad2 (t / 3600 % 24) ++ ":" ++ pad2 (t / 60 % 60)

/-- `TimeEntry.get_open_entry`: first row of
`filter(user=user, check_out__isnull=True)` in query order. -/
def get_open_entry (entries : List TimeEntry) (user : Nat) : Option TimeEntry :=
  (entries.filter (fun e => e.user == user && e.is_open)).head?

/-- `TimeEntry.has_open_entry`: `filter(user=user, check_out__isnull=True).exists()`. -/
def has_open_entry (entries : List TimeEntry) (user : Nat) : Bool :=
  !(entries.filter (fun e => e.user == user && e.is_open)).isEmpty

/-- Number of open entries of one employee (the quantity the
at-most-one-open-entry invariant bounds). -/
def open_count (entries : List TimeEntry) (user : Nat) : Nat :=
  (entries.filter (fun e => e.user == user && e.is_open)).length

/-! ## Network admission check (`clock/ip_utils.py::validate_location_access`) -/

/-- `validate_location_access(request, location)` with the client IP already
extracted from the request: `(is_allowed, client_ip, error_message)`. -/
def validate_location_access (client_ip : String) (location : Location) :
    Bool × String × Option String :=
  if !location.is_active then
    (false, client_ip, some "Este local no está activo")
  else if location.allowed_ips.isEmpty then
    (false, client_ip, some "No hay IPs configuradas para este local")
  else if is_ip_allowed client_ip location.allowed_ips then
    (true, client_ip, none)
  else
    (false, client_ip, some "No puedes fichar desde fuera del local. Asegúrate de estar conectado al Wi-Fi del establecimiento.")

/-! ## Attendance state tracker (`clock/views.py`) -/

/-- The row `TimeEntry.objects.create(...)` inserts in `do_check_in`. -/
def mk_checkin_entry (user location : Nat) (client_ip : String) (now : Nat) : TimeEntry :=
  { user := user
    location := location
    check_in := now
    check_out := none
    check_in_ip := client_ip
    check_out_ip := none
    is_manual := false
    notes := ""
    modified_by := none }

/-- `clock/views.py::do_check_in`: reject when an open entry exists,
otherwise insert a fresh open entry. Returns the `(success, error)` message
pair together with the new table. -/
def do_check_in (entries : List TimeEntry) (user location : Nat)
    (client_ip : String) (now : Nat) :
    (Option String × Option String) × List TimeEntry :=
  if has_open_entry entries user then
    let time_str :=
      match get_open_entry entries user with
      | some open_entry => strftime_HM open_entry.check_in
      | none => ""
    ((none, some ("You already clocked in at " ++ time_str)), entries)
  else
    ((some ("Clocked in at " ++ strftime_HM now), none),
      mk_checkin_entry user location client_ip now :: entries)

/-- `open_entry.check_out = now; open_entry.check_out_ip = client_ip;
open_entry.save()`: update, in place, the row `get_open_entry` returned
(the first open row of the employee in query order). -/
def close_first_open (entries : List TimeEntry) (user : Nat)
    (now : Nat) (client_ip : String) : List TimeEntry :=
  match entries with
  | [] => []
  | e :: rest =>
    if e.user == user && e.is_open then
      { e with check_out := some now, check_out_ip := some client_ip } :: rest
    else
      e :: close_first_open rest user now client_ip

/-- `clock/views.py::do_check_out`: reject when no open entry exists,
otherwise stamp check-out time and IP on the open entry. -/
def do_check_out (entries : List TimeEntry) (user : Nat)
    (client_ip : String) (now : Nat) :
    (Option String × Option String) × List TimeEntry :=
  match get_open_entry entries user with
  | none => ((none, some "You haven't clocked in yet"), entries)
  | some open_entry =>
    let closed := { open_entry with check_out := some now, check_out_ip := some client_ip }
    ((some ("Clocked out at " ++ strftime_HM now ++ " (Duration: "
        ++ closed.duration_display ++ ")"), none),
      close_first_open entries user now client_ip)

/-- The database state the clock endpoint touches: the time-entry table and
the failed-attempt audit table (rows in insertion order). -/
structure ClockState where
  entries : List TimeEntry
  attempts : List FailedClockAttempt
deriving Repr, DecidableEq

/-- The POST branch of `clock/views.py::clock_view`: no active location is
an error; a request from a non-admitted IP is rejected and one
`FailedClockAttempt` row is inserted; otherwise the action is dispatched to
`do_check_in` / `do_check_out`. -/
def clock_view_post (s : ClockState) (user : Nat) (action : String)
    (location : Option Location) (client_ip : String) (now : Nat) :
    (Option String × Option String) × ClockState :=
  match location with
  | none => ((none, some "No location configured. Contact administrator."), s)
  | some loc =>
    let v := validate_location_access client_ip loc
    if !v.1 then
      ((none, some "You must be at the workplace to clock in/out"),
        { s with attempts := s.attempts ++
            [{ user := user, location := some loc.id, action := action,
               ip_address := v.2.1, timestamp := now }] })
    else if action == "in" then
      let r := do_check_in s.entries user loc.id v.2.1 now
      (r.1, { s with entries := r.2 })
    else if action == "out" then
      let r := do_check_out s.entries user v.2.1 now
      (r.1, { s with entries := r.2 })
    else
      ((none, some "Invalid action"), s)

/-! ## Administrative path (`clock/admin.py`) -/

/-- Python's `str.strip()`: drop whitespace from both ends (as characters). -/
def py_stripped (s : String) : List Char :=
  ((s.toList.dropWhile (fun c => c.isWhitespace)).reverse.dropWhile
    (fun c => c.isWhitespace)).reverse

/-- `clock/admin.py::TimeEntryForm.clean`: editing an existing row
(`self.instance.pk`) or ticking `is_manual` requires at least 10 characters
of (stripped) notes. Returns `true` when validation passes. -/
def timeentry_form_clean (has_pk : Bool) (is_manual : Bool) (notes : String) : Bool :=
  if has_pk || is_manual then decide (10 ≤ (py_stripped notes).length) else true

/-- `clock/admin.py::TimeEntryAdmin.save_model` on add (`change=False`),
guarded by the form validation: the new row is forced manual, its check-in
IP is `'ADMIN'`, and its check-out IP is `'ADMIN'` when a check-out was
supplied. `none` is a rejected (unsaved) form. -/
def admin_save_add (entries : List TimeEntry) (user location check_in : Nat)
    (check_out : Option Nat) (is_manual : Bool) (notes : String) :
    Option (List TimeEntry) :=
  if timeentry_form_clean false is_manual notes then
    some ({ user := user
            location := location
            check_in := check_in
            check_out := check_out
            check_in_ip := "ADMIN"
            check_out_ip := if check_out.isSome then some "ADMIN" else none
            is_manual := true
            notes := notes
            modified_by := none } :: entries)
  else none

/-- `clock/admin.py::TimeEntryAdmin.save_model` on change (`change=True`),
guarded by the form validation: the row at index `i` takes the form's
editable fields, is forced manual, and records the editor in `modified_by`
(the IP fields are `readonly_fields`, hence kept). `none` is a rejected
(unsaved) form. -/
def admin_save_change (entries : List TimeEntry) (i : Nat)
    (user location check_in : Nat) (check_out : Option Nat)
    (is_manual : Bool) (notes : String) (editor : Nat) :
    Option (List TimeEntry) :=
  if h : i < entries.length then
    if timeentry_form_clean true is_manual notes then
      some (entries.set i
        { entries[i] with
          user := user, location := location, check_in := check_in,
          check_out := check_out, notes := notes,
          is_manual := true, modified_by := some editor })
    else none
  else none

/-- An allow-list entry the code cannot parse: an entry with a `/` that is
not a CIDR block (prefix-length or dotted-decimal netmask/hostmask form),
or an entry without one that is not a single address. (Neither form can
parse as the other, so this is exactly "parses as neither a single address
nor a CIDR block".) -/
def malformed (a : String) : Bool :=
  if a.toList.contains '/' then (ipaddress_ip_network a).isNone
  else (ipaddress_ip_address a).isNone

/-- A sample completed entry (both timestamps set), used as a concrete
fixture by witnesses. -/
def closed_entry_fixture : TimeEntry :=
  { user := 1
    location := 1
    check_in := 100
    check_out := some 200
    check_in_ip := "192.168.1.50"
    check_out_ip := some "192.168.1.50"
    is_manual := false
    notes := ""
    modified_by := none }

/-! ## Helper lemmas -/

lemma open_count_cons (e : TimeEntry) (es : List TimeEntry) (u : Nat) :
    open_count (e :: es) u =
      (if e.user == u && e.is_open then 1 else 0) + open_count es u := by
  unfold open_count
  rw [List.filter_cons]
  split <;> simp [Nat.add_comm]

lemma has_open_entry_false_iff (entries : List TimeEntry) (u : Nat) :
    has_open_entry entries u = false ↔ open_count entries u = 0 := by
  unfold has_open_entry open_count
  simp [List.isEmpty_iff, List.length_eq_zero]

lemma get_open_entry_none_iff (entries : List TimeEntry) (u : Nat) :
    get_open_entry entries u = none ↔ has_open_entry entries u = false := by
  unfold get_open_entry has_open_entry
  simp [List.head?_eq_none_iff, List.isEmpty_iff]

lemma get_open_entry_cons (e : TimeEntry) (es : List TimeEntry) (u : Nat) :
    get_open_entry (e :: es) u =
      if e.user == u && e.is_open then some e else get_open_entry es u := by
  unfold get_open_entry
  rw [List.filter_cons]
  split <;> simp

lemma has_open_entry_cons_self (u loc : Nat) (ip : String) (now : Nat)
    (entries : List TimeEntry) :
    has_open_entry (mk_checkin_entry u loc ip now :: entries) u = true := by
  unfold has_open_entry
  rw [List.filter_cons]
  simp [mk_checkin_entry, TimeEntry.is_open]

lemma close_first_open_decomp (entries : List TimeEntry) (u : Nat) (e : TimeEntry)
    (now : Nat) (ip : String) (he : get_open_entry entries u = some e) :
    ∃ l1 l2, entries = l1 ++ e :: l2 ∧
      (∀ x ∈ l1, (x.user == u && x.is_open) = false) ∧
      close_first_open entries u now ip =
        l1 ++ { e with check_out := some now, check_out_ip := some ip } :: l2 := by
  induction entries with
  | nil => simp [get_open_entry] at he
  | cons a as ih =>
    rw [get_open_entry_cons] at he
    by_cases ha : (a.user == u && a.is_open) = true
    · rw [if_pos ha] at he
      obtain rfl : a = e := by injection he
      refine ⟨[], as, rfl, by simp, ?_⟩
      simp only [close_first_open]
      rw [if_pos ha]
      simp
    · rw [if_neg ha] at he
      obtain ⟨l1, l2, hsplit, hnone, hclose⟩ := ih he
      refine ⟨a :: l1, l2, by rw [List.cons_append, hsplit], ?_, ?_⟩
      · intro x hx
        rcases List.mem_cons.mp hx with rfl | hx
        · exact Bool.eq_false_iff.mpr ha
        · exact hnone x hx
      · simp only [close_first_open]
        rw [if_neg ha, hclose, List.cons_append]

lemma open_count_close_first_le (entries : List TimeEntry) (u : Nat) (now : Nat)
    (ip : String) (u' : Nat) :
    open_count (close_first_open entries u now ip) u' ≤ open_count entries u' := by
  induction entries with
  | nil => simp [close_first_open]
  | cons a as ih =>
    simp only [close_first_open]
    by_cases ha : (a.user == u && a.is_open) = true
    · rw [if_pos ha, open_count_cons, open_count_cons]
      have hclosed :
          ({ a with check_out := some now, check_out_ip := some ip } : TimeEntry).is_open
            = false := rfl
      rw [hclosed]
      simp only [Bool.and_false, Bool.false_eq_true, if_false]
      exact Nat.add_le_add_right (Nat.zero_le _) _
    · rw [if_neg ha, open_count_cons, open_count_cons]
      exact Nat.add_le_add_left ih _

lemma mem_close_first_open_of_not_target (entries : List TimeEntry) (u : Nat)
    (now : Nat) (ip : String) (e : TimeEntry) (he : e ∈ entries)
    (hc : (e.user == u && e.is_open) = false) :
    e ∈ close_first_open entries u now ip := by
  induction entries with
  | nil => cases he
  | cons a as ih =>
    simp only [close_first_open]
    rcases List.mem_cons.mp he with rfl | hmem
    · rw [if_neg (by rw [hc]; exact Bool.false_ne_true)]
      exact List.mem_cons_self _ _
    · by_cases ha : (a.user == u && a.is_open) = true
      · rw [if_pos ha]
        exact List.mem_cons_of_mem _ hmem
      · rw [if_neg ha]
        exact List.mem_cons_of_mem _ (ih hmem)

lemma entry_matches_of_malformed (a : String) (hm : malformed a = true) (c : Nat) :
    entry_matches c a = false := by
  unfold malformed at hm
  unfold entry_matches
  by_cases hs : a.toList.contains '/'
  · simp only [hs, if_true] at hm ⊢
    rcases h : ipaddress_ip_network a with _ | net
    · rfl
    · rw [h] at hm; simp at hm
  · simp only [hs, if_false] at hm ⊢
    rcases h : ipaddress_ip_address a with _ | x
    · rfl
    · rw [h] at hm; simp at hm

lemma entry_matches_iff (c : Nat) (a : String) :
    entry_matches c a = true ↔
      (a.toList.contains '/' = false ∧ ipaddress_ip_address a = some c) ∨
      (a.toList.contains '/' = true ∧
        ∃ net, ipaddress_ip_network a = some net ∧ network_contains net c = true) := by
  unfold entry_matches
  cases hs : a.toList.contains '/'
  · rcases h : ipaddress_ip_address a with _ | x
    · simp
    · show (c == x) = true ↔ _
      constructor
      · intro he
        exact Or.inl ⟨rfl, by rw [show c = x from eq_of_beq he]⟩
      · rintro (⟨-, hx⟩ | ⟨hex, -⟩)
        · obtain rfl : x = c := by injection hx
          exact beq_self_eq_true _
        · exact absurd hex (by decide)
  · rcases h : ipaddress_ip_network a with _ | net
    · simp
    · show network_contains net c = true ↔ _
      constructor
      · intro hnc
        exact Or.inr ⟨rfl, net, rfl, hnc⟩
      · rintro (⟨hex, -⟩ | ⟨-, net', hnet', hc⟩)
        · exact absurd hex (by decide)
        · obtain rfl : net = net' := by injection hnet'
          exact hc

/-! ## Claim theorems -/

/-- C4: for every client IP that parses, `is_ip_allowed` returns true
exactly when the client address equals some literal entry of the list or
falls within some CIDR-block entry of it; on an empty list it returns
false; concretely, "192.168.1.50" is allowed by ["192.168.1.0/24"] and by
the dotted-decimal netmask form ["192.168.1.0/255.255.255.0"], and not by
["10.0.0.0/8"]. -/
theorem is_ip_allowed_spec :
    (∀ (client_ip : String) (c : Nat) (l : List String),
      ipaddress_ip_address client_ip = some c →
      (is_ip_allowed client_ip l = true ↔
        ∃ a ∈ l,
          (a.toList.contains '/' = false ∧ ipaddress_ip_address a = some c) ∨
          (a.toList.contains '/' = true ∧
            ∃ net, ipaddress_ip_network a = some net ∧ network_contains net c = true)))
    ∧ (∀ client_ip : String, is_ip_allowed client_ip [] = false)
    ∧ is_ip_allowed "192.168.1.50" ["192.168.1.0/24"] = true
    ∧ is_ip_allowed "192.168.1.50" ["192.168.1.0/255.255.255.0"] = true
    ∧ is_ip_allowed "192.168.1.50" ["10.0.0.0/8"] = false := by
  refine ⟨?_, ?_, by decide, by decide, by decide⟩
  · intro client_ip c l hc
    unfold is_ip_allowed
    rw [hc]
    by_cases hl : l.isEmpty
    · rw [List.isEmpty_iff] at hl
      subst hl
      simp
    · simp only [hl, Bool.false_eq_true, if_false, List.any_eq_true]
      constructor
      · rintro ⟨a, ha, hm⟩
        exact ⟨a, ha, (entry_matches_iff c a).mp hm⟩
      · rintro ⟨a, ha, hm⟩
        exact ⟨a, ha, (entry_matches_iff c a).mpr hm⟩
  · intro client_ip
    rfl

/-- Witness for C4 at a concrete input: the quantified equivalence applied
to client "192.168.1.50" and list ["192.168.1.0/24"]. -/
theorem is_ip_allowed_spec_witness :
    ∃ a ∈ ["192.168.1.0/24"],
      (a.toList.contains '/' = false ∧ ipaddress_ip_address a = some 3232235826) ∨
      (a.toList.contains '/' = true ∧
        ∃ net, ipaddress_ip_network a = some net ∧ network_contains net 3232235826 = true) :=
  (is_ip_allowed_spec.1 "192.168.1.50" 3232235826 ["192.168.1.0/24"] (by decide)).mp
    (by decide)

/-- C5: a malformed allow-list entry is skipped without failing — the
result on any list containing it equals the result on the list with that
entry removed. -/
theorem malformed_entry_skipped (client_ip : String) (l1 l2 : List String) (a : String)
    (hm : malformed a = true) :
    is_ip_allowed client_ip (l1 ++ a :: l2) = is_ip_allowed client_ip (l1 ++ l2) := by
  unfold is_ip_allowed
  rcases hc : ipaddress_ip_address client_ip with _ | c
  · by_cases h2 : (l1 ++ l2).isEmpty <;> simp [hc, List.isEmpty_iff, h2]
  · by_cases h2 : (l1 ++ l2).isEmpty
    · rw [List.isEmpty_iff, List.append_eq_nil] at h2
      obtain ⟨rfl, rfl⟩ := h2
      simp [entry_matches_of_malformed a hm c]
    · have h1 : (l1 ++ a :: l2).isEmpty = false := by
        simp [List.isEmpty_iff]
      simp only [h1, h2, Bool.false_eq_true, if_false]
      simp [List.any_append, entry_matches_of_malformed a hm c]

/-- Witness for C5: the malformed entry "garbage" is skipped, so the valid
literal after it still admits the client. -/
theorem malformed_entry_skipped_witness :
    is_ip_allowed "192.168.1.50" (["garbage"] ++ ["192.168.1.50"]) =
      is_ip_allowed "192.168.1.50" ([] ++ ["192.168.1.50"]) ∧
    is_ip_allowed "192.168.1.50" ([] ++ ["192.168.1.50"]) = true :=
  ⟨malformed_entry_skipped "192.168.1.50" [] ["192.168.1.50"] "garbage" (by decide),
   by decide⟩

/-- C10: a client IP string that does not parse as an IP address is never
admitted — `is_ip_allowed` returns false on it for every allow-list,
rather than raising. -/
theorem invalid_client_ip_rejected (client_ip : String) (l : List String)
    (h : ipaddress_ip_address client_ip = none) :
    is_ip_allowed client_ip l = false := by
  unfold is_ip_allowed
  rw [h]
  split <;> rfl

/-- Witness for C10: the unparseable client "bogus" is rejected against a
non-empty allow-list. -/
theorem invalid_client_ip_rejected_witness :
    is_ip_allowed "bogus" ["192.168.1.0/24", "10.0.0.0/8"] = false :=
  invalid_client_ip_rejected "bogus" ["192.168.1.0/24", "10.0.0.0/8"] (by decide)

/-- C6: an entry whose check-out lies exactly 90 minutes after its
check-in renders the duration string "1h 30m". -/
theorem duration_display_90_minutes (e : TimeEntry) (co : Nat)
    (hco : e.check_out = some co) (hdur : co - e.check_in = 90 * 60) :
    e.duration_display = "1h 30m" := by
  unfold TimeEntry.duration_display TimeEntry.duration_minutes
  rw [hco]
  simp only [hdur]
  rfl

/-- Witness for C6: a concrete entry checked in at 1000 and out at 6400. -/
theorem duration_display_90_minutes_witness :
    TimeEntry.duration_display
      { user := 1, location := 1, check_in := 1000, check_out := some 6400,
        check_in_ip := "192.168.1.50", check_out_ip := some "192.168.1.50",
        is_manual := false, notes := "", modified_by := none } = "1h 30m" :=
  duration_display_90_minutes _ 6400 rfl (by decide)

/-- C2: `do_check_in` fails (an error message, no new row, no change to the
table) exactly when the employee already has an open entry; otherwise it
creates exactly one new entry carrying the current timestamp as check-in,
the source IP as check-in IP, and no check-out; hence a second consecutive
check-in for the same employee fails. -/
theorem do_check_in_spec (entries : List TimeEntry) (user location : Nat)
    (client_ip : String) (now : Nat) :
    (has_open_entry entries user = true →
      (do_check_in entries user location client_ip now).2 = entries ∧
      ((do_check_in entries user location client_ip now).1.2).isSome = true)
    ∧ (has_open_entry entries user = false →
      (do_check_in entries user location client_ip now).2 =
        mk_checkin_entry user location client_ip now :: entries ∧
      (do_check_in entries user location client_ip now).1.2 = none)
    ∧ (has_open_entry entries user = false →
      ∀ (ip2 : String) (now2 : Nat),
        ((do_check_in (do_check_in entries user location client_ip now).2
            user location ip2 now2).1.2).isSome = true) := by
  refine ⟨?_, ?_, ?_⟩ <;> intro h
  · unfold do_check_in
    rw [if_pos h]
    exact ⟨rfl, rfl⟩
  · unfold do_check_in
    rw [if_neg (by rw [h]; exact Bool.false_ne_true)]
    exact ⟨rfl, rfl⟩
  · intro ip2 now2
    have hstate : (do_check_in entries user location client_ip now).2 =
        mk_checkin_entry user location client_ip now :: entries := by
      unfold do_check_in
      rw [if_neg (by rw [h]; exact Bool.false_ne_true)]
    rw [hstate]
    unfold do_check_in
    rw [if_pos (has_open_entry_cons_self user location client_ip now entries)]
    rfl

/-- Witness for C2 at concrete inputs: a check-in on an empty table creates
the open entry; a second check-in then fails; a check-in over an existing
open entry fails and leaves the table unchanged. -/
theorem do_check_in_spec_witness :
    ((do_check_in [mk_checkin_entry 1 1 "192.168.1.50" 100] 1 1 "192.168.1.50" 200).2 =
        [mk_checkin_entry 1 1 "192.168.1.50" 100]
      ∧ ((do_check_in [mk_checkin_entry 1 1 "192.168.1.50" 100] 1 1
            "192.168.1.50" 200).1.2).isSome = true)
    ∧ (do_check_in ([] : List TimeEntry) 1 1 "192.168.1.50" 100).2 =
        [mk_checkin_entry 1 1 "192.168.1.50" 100]
    ∧ ((do_check_in (do_check_in ([] : List TimeEntry) 1 1 "192.168.1.50" 100).2
          1 1 "10.0.0.7" 200).1.2).isSome = true := by
  have h1 := (do_check_in_spec [mk_checkin_entry 1 1 "192.168.1.50" 100]
    1 1 "192.168.1.50" 200).1 (by decide)
  have h2 := (do_check_in_spec ([] : List TimeEntry) 1 1 "192.168.1.50" 100).2.1 (by decide)
  have h3 := (do_check_in_spec ([] : List TimeEntry) 1 1 "192.168.1.50" 100).2.2
    (by decide) "10.0.0.7" 200
  exact ⟨⟨h1.1, h1.2⟩, h2.1, h3⟩

/-- C3: `do_check_out` fails exactly when the employee has no open entry,
leaving the table unchanged on failure; on success it stamps the check-out
time and IP on the existing open entry in place (entries before it are not
open entries of that employee), creating no new entry. -/
theorem do_check_out_spec (entries : List TimeEntry) (user : Nat)
    (client_ip : String) (now : Nat) :
    (((do_check_out entries user client_ip now).1.2).isSome = true ↔
      has_open_entry entries user = false)
    ∧ (has_open_entry entries user = false →
      (do_check_out entries user client_ip now).2 = entries)
    ∧ (∀ e, get_open_entry entries user = some e →
      ∃ l1 l2, entries = l1 ++ e :: l2 ∧
        (∀ x ∈ l1, (x.user == user && x.is_open) = false) ∧
        (do_check_out entries user client_ip now).2 =
          l1 ++ { e with check_out := some now, check_out_ip := some client_ip } :: l2 ∧
        (do_check_out entries user client_ip now).1.2 = none ∧
        (do_check_out entries user client_ip now).2.length = entries.length) := by
  rcases hg : get_open_entry entries user with _ | e
  · have hno : has_open_entry entries user = false :=
      (get_open_entry_none_iff entries user).mp hg
    have hres : do_check_out entries user client_ip now =
        ((none, some "You haven't clocked in yet"), entries) := by
      unfold do_check_out
      rw [hg]
    refine ⟨?_, ?_, ?_⟩
    · rw [hres, hno]
      exact ⟨fun _ => rfl, fun _ => rfl⟩
    · intro hdummy
      rw [hres]
    · intro e he
      exact Option.noConfusion he
  · have hyes : has_open_entry entries user = true := by
      by_contra hb
      rw [Bool.not_eq_true] at hb
      rw [(get_open_entry_none_iff entries user).mpr hb] at hg
      cases hg
    have hres2 : (do_check_out entries user client_ip now).2 =
        close_first_open entries user now client_ip := by
      unfold do_check_out
      rw [hg]
    have hres1 : (do_check_out entries user client_ip now).1.2 = none := by
      unfold do_check_out
      rw [hg]
    refine ⟨?_, ?_, ?_⟩
    · rw [hres1, hyes]
      simp
    · intro hb
      rw [hyes] at hb
      exact Bool.noConfusion hb
    · intro e' he'
      obtain rfl : e = e' := by injection he'
      obtain ⟨l1, l2, hsplit, hnone, hclose⟩ :=
        close_first_open_decomp entries user e now client_ip hg
      refine ⟨l1, l2, hsplit, hnone, ?_, hres1, ?_⟩
      · rw [hres2, hclose]
      · rw [hres2, hclose, hsplit]
        simp

/-- Witness for C3 at concrete inputs: with no open entry the check-out
fails and changes nothing; with one open entry it closes exactly that
entry. -/
theorem do_check_out_spec_witness :
    (do_check_out ([] : List TimeEntry) 1 "10.0.0.7" 300).2 = []
    ∧ ∃ l1 l2, [mk_checkin_entry 1 1 "192.168.1.50" 100] =
        l1 ++ mk_checkin_entry 1 1 "192.168.1.50" 100 :: l2 ∧
      (∀ x ∈ l1, (x.user == 1 && x.is_open) = false) ∧
      (do_check_out [mk_checkin_entry 1 1 "192.168.1.50" 100] 1 "10.0.0.7" 300).2 =
        l1 ++ { mk_checkin_entry 1 1 "192.168.1.50" 100 with
                  check_out := some 300, check_out_ip := some "10.0.0.7" } :: l2 ∧
      (do_check_out [mk_checkin_entry 1 1 "192.168.1.50" 100] 1 "10.0.0.7" 300).1.2 = none ∧
      (do_check_out [mk_checkin_entry 1 1 "192.168.1.50" 100] 1 "10.0.0.7" 300).2.length =
        [mk_checkin_entry 1 1 "192.168.1.50" 100].length := by
  constructor
  · exact (do_check_out_spec ([] : List TimeEntry) 1 "10.0.0.7" 300).2.1 (by decide)
  · exact (do_check_out_spec [mk_checkin_entry 1 1 "192.168.1.50" 100] 1
      "10.0.0.7" 300).2.2 (mk_checkin_entry 1 1 "192.168.1.50" 100) (by decide)

/-- C1 (amended): the clock endpoint — check-in, check-out, or a rejected or
invalid action — preserves the at-most-one-open-entry-per-employee
invariant. (The administrative creation path does not enforce it; see the
counterexample.) -/
theorem clock_preserves_open_invariant (s : ClockState) (user : Nat) (action : String)
    (location : Option Location) (client_ip : String) (now : Nat)
    (hinv : ∀ u, open_count s.entries u ≤ 1) :
    ∀ u, open_count (clock_view_post s user action location client_ip now).2.entries u ≤ 1 := by
  intro u
  have hin : ∀ loc ip', open_count (do_check_in s.entries user loc ip' now).2 u ≤ 1 := by
    intro loc ip'
    unfold do_check_in
    by_cases h : has_open_entry s.entries user = true
    · rw [if_pos h]
      exact hinv u
    · rw [Bool.not_eq_true] at h
      rw [if_neg (by rw [h]; exact Bool.false_ne_true)]
      show open_count (mk_checkin_entry user loc ip' now :: s.entries) u ≤ 1
      rw [open_count_cons]
      by_cases hp : ((mk_checkin_entry user loc ip' now).user == u
          && (mk_checkin_entry user loc ip' now).is_open) = true
      · rw [if_pos hp]
        obtain rfl : user = u := eq_of_beq (Bool.and_elim_left hp)
        rw [(has_open_entry_false_iff s.entries user).mp h]
      · rw [if_neg hp]
        exact Nat.le_trans (Nat.le_of_eq (Nat.zero_add _)) (hinv u)
  have hout : ∀ ip', open_count (do_check_out s.entries user ip' now).2 u ≤ 1 := by
    intro ip'
    unfold do_check_out
    rcases hg : get_open_entry s.entries user with _ | e
    · exact hinv u
    · exact Nat.le_trans (open_count_close_first_le s.entries user now ip' u) (hinv u)
  unfold clock_view_post
  rcases location with _ | loc
  · exact hinv u
  · dsimp only
    split
    · exact hinv u
    · split
      · exact hin loc.id _
      · split
        · exact hout _
        · exact hinv u

/-- Witness for C1 (amended): a concrete check-in through the endpoint from
the empty state keeps the open count of employee 1 at most one. -/
theorem clock_preserves_open_invariant_witness :
    open_count (clock_view_post ⟨[], []⟩ 1 "in"
      (some { id := 5, code := "LOCAL_01", name := "Meriendahaus Principal",
              allowed_ips := ["192.168.1.0/24"], is_active := true })
      "192.168.1.50" 100).2.entries 1 ≤ 1 :=
  clock_preserves_open_invariant ⟨[], []⟩ 1 "in"
    (some { id := 5, code := "LOCAL_01", name := "Meriendahaus Principal",
            allowed_ips := ["192.168.1.0/24"], is_active := true })
    "192.168.1.50" 100 (fun _ => Nat.zero_le 1) 1

/-- Counterexample to C1 as stated: from the empty table, a successful
check-in gives employee 1 one open entry, after which the administrative
add path (`TimeEntryAdmin.save_model` with `change=False`, passing
`TimeEntryForm.clean` with the manual flag unticked) accepts a second
entry with no check-out for the same employee — a reachable state with two
open entries, so the administrative operations do not preserve the
invariant. -/
theorem admin_add_breaks_open_invariant :
    open_count (do_check_in ([] : List TimeEntry) 1 1 "192.168.1.50" 100).2 1 = 1 ∧
    (admin_save_add (do_check_in ([] : List TimeEntry) 1 1 "192.168.1.50" 100).2
        1 1 200 none false "").map (fun l => open_count l 1) = some 2 := by
  exact ⟨rfl, rfl⟩

/-- C7: when a clock action is rejected for a non-admitted source IP,
exactly one failed-attempt record carrying the employee, location, action,
source IP and timestamp is appended, the time-entry table is untouched, and
— across every request the endpoint handles — the existing failed-attempt
records are only ever extended, never modified or deleted. -/
theorem rejected_attempt_audit (s : ClockState) (user : Nat) (action : String)
    (loc : Location) (client_ip : String) (now : Nat)
    (hrej : (validate_location_access client_ip loc).1 = false) :
    ((clock_view_post s user action (some loc) client_ip now).2.attempts =
        s.attempts ++ [{ user := user, location := some loc.id, action := action,
                         ip_address := client_ip, timestamp := now }]
      ∧ (clock_view_post s user action (some loc) client_ip now).2.entries = s.entries
      ∧ (clock_view_post s user action (some loc) client_ip now).1.1 = none)
    ∧ ∀ (s' : ClockState) (user' : Nat) (action' : String) (location' : Option Location)
        (ip' : String) (now' : Nat),
        ∃ t, (clock_view_post s' user' action' location' ip' now').2.attempts =
          s'.attempts ++ t := by
  constructor
  · have hip : (validate_location_access client_ip loc).2.1 = client_ip := by
      unfold validate_location_access
      split
      · rfl
      · split
        · rfl
        · split <;> rfl
    unfold clock_view_post
    dsimp only
    rw [hrej, hip]
    exact ⟨rfl, rfl, rfl⟩
  · intro s' user' action' location' ip' now'
    unfold clock_view_post
    rcases location' with _ | loc'
    · exact ⟨[], by rw [List.append_nil]⟩
    · dsimp only
      split
      · exact ⟨_, rfl⟩
      · split
        · exact ⟨[], by rw [List.append_nil]⟩
        · split
          · exact ⟨[], by rw [List.append_nil]⟩
          · exact ⟨[], by rw [List.append_nil]⟩

/-- Witness for C7: a request from outside the allow-list is rejected and
recorded against a concrete state that already holds one attempt. -/
theorem rejected_attempt_audit_witness :
    (clock_view_post
        ⟨[], [{ user := 2, location := some 5, action := "in",
                ip_address := "10.0.0.9", timestamp := 50 }]⟩
        1 "in"
        (some { id := 5, code := "LOCAL_01", name := "Meriendahaus Principal",
                allowed_ips := ["192.168.1.0/24"], is_active := true })
        "10.0.0.9" 100).2.attempts =
      [{ user := 2, location := some 5, action := "in",
         ip_address := "10.0.0.9", timestamp := 50 }] ++
      [{ user := 1, location := some 5, action := "in",
         ip_address := "10.0.0.9", timestamp := 100 }] :=
  (rejected_attempt_audit
    ⟨[], [{ user := 2, location := some 5, action := "in",
            ip_address := "10.0.0.9", timestamp := 50 }]⟩
    1 "in"
    { id := 5, code := "LOCAL_01", name := "Meriendahaus Principal",
      allowed_ips := ["192.168.1.0/24"], is_active := true }
    "10.0.0.9" 100 (by decide)).1.1

/-- C8: an entry with both timestamps set survives check-in and check-out
unchanged (it is still a row of the table); an administrative edit of an
existing row with an insufficient note (fewer than 10 characters after
stripping) is rejected with the table unchanged; a successful
administrative edit requires a sufficient note and leaves the edited row
marked manual with the editor recorded. -/
theorem closed_entry_immutable_edit_rules :
    (∀ (entries : List TimeEntry) (u loc : Nat) (ip : String) (now : Nat) (e : TimeEntry),
      e ∈ entries → e.check_out.isSome = true →
      e ∈ (do_check_in entries u loc ip now).2 ∧
      e ∈ (do_check_out entries u ip now).2)
    ∧ (∀ (entries : List TimeEntry) (i u loc ci : Nat) (co : Option Nat)
        (im : Bool) (nts : String) (editor : Nat),
      (py_stripped nts).length < 10 →
      admin_save_change entries i u loc ci co im nts editor = none)
    ∧ (∀ (entries : List TimeEntry) (i u loc ci : Nat) (co : Option Nat)
        (im : Bool) (nts : String) (editor : Nat) (l2 : List TimeEntry),
      admin_save_change entries i u loc ci co im nts editor = some l2 →
      10 ≤ (py_stripped nts).length ∧
      ∀ h : i < l2.length, l2[i].is_manual = true ∧ l2[i].modified_by = some editor) := by
  refine ⟨?_, ?_, ?_⟩
  · intro entries u loc ip now e he hclosed
    have hnp : (e.user == u && e.is_open) = false := by
      have : e.is_open = false := by
        unfold TimeEntry.is_open
        rcases h : e.check_out with _ | v
        · rw [h] at hclosed
          exact Bool.noConfusion hclosed
        · rfl
      rw [this, Bool.and_false]
    constructor
    · unfold do_check_in
      split
      · exact he
      · exact List.mem_cons_of_mem _ he
    · unfold do_check_out
      rcases hg : get_open_entry entries u with _ | e'
      · exact he
      · exact mem_close_first_open_of_not_target entries u now ip e he hnp
  · intro entries i u loc ci co im nts editor hshort
    unfold admin_save_change
    split
    · rw [if_neg]
      intro hval
      unfold timeentry_form_clean at hval
      rw [if_pos (by rw [Bool.true_or])] at hval
      exact absurd (of_decide_eq_true hval) (Nat.not_le_of_lt hshort)
    · rfl
  · intro entries i u loc ci co im nts editor l2 hsave
    unfold admin_save_change at hsave
    split at hsave
    · rename_i hlen
      by_cases hval : timeentry_form_clean true im nts = true
      · rw [if_pos hval] at hsave
        have hnts : 10 ≤ (py_stripped nts).length := by
          unfold timeentry_form_clean at hval
          rw [if_pos (by rw [Bool.true_or])] at hval
          exact of_decide_eq_true hval
        obtain rfl : entries.set i
            { entries[i] with
              user := u, location := loc, check_in := ci,
              check_out := co, notes := nts,
              is_manual := true, modified_by := some editor } = l2 := by
          injection hsave
        refine ⟨hnts, fun h => ?_⟩
        have hget := List.getElem_set_self (l := entries)
          (i := i) (h := by simpa using h)
          (a := { entries[i] with
                  user := u, location := loc, check_in := ci,
                  check_out := co, notes := nts,
                  is_manual := true, modified_by := some editor })
        rw [hget]
        exact ⟨rfl, rfl⟩
      · rw [if_neg hval] at hsave
        exact Option.noConfusion hsave
    · exact Option.noConfusion hsave

/-- Witness for C8 at concrete inputs: a closed entry survives both clock
operations; an edit with a short note is rejected; a successful edit forces
the manual flag and the editor. -/
theorem closed_entry_immutable_edit_rules_witness :
    (closed_entry_fixture ∈
      (do_check_in [closed_entry_fixture] 1 1 "10.0.0.7" 300).2)
    ∧ admin_save_change [closed_entry_fixture]
        0 1 1 100 (some 250) false "short" 9 = none
    ∧ 10 ≤ (py_stripped "reason for the manual correction").length := by
  refine ⟨?_, ?_, ?_⟩
  · exact ((closed_entry_immutable_edit_rules.1
      [closed_entry_fixture] 1 1 "10.0.0.7" 300 closed_entry_fixture
      (List.mem_singleton.mpr rfl) (by decide))).1
  · exact closed_entry_immutable_edit_rules.2.1
      [closed_entry_fixture] 0 1 1 100 (some 250) false "short" 9 (by decide)
  · exact (closed_entry_immutable_edit_rules.2.2
      [closed_entry_fixture] 0 1 1 100 (some 250) false
      "reason for the manual correction" 9
      [{ closed_entry_fixture with
           check_out := some 250,
           notes := "reason for the manual correction",
           is_manual := true,
           modified_by := some 9 }]
      (by rfl)).1

end Clock
